import Mathlib

/-
Verification of the sponsor fund ledger of the Enhanced Learning Management
System backend (Django/DRF).  The embedding below translates, per sponsor
account, the handlers in `app1/views.py` (SponsorProfileViewSet.add_funds,
SponsorProfileViewSet.deduct_funds, SponsorshipViewSet.perform_create),
the serializers in `app1/Serializer.py` (SponsorProfileSerializer,
SponsorshipSerializer) and the dashboard aggregation in
`analytics/views.py` (SponsorDashboardViewSet.dashboard).

Money is Python `Decimal` in the source; additions and subtractions on the
amounts involved are exact, so amounts are embedded as `ℚ`.  All rows shown
(ledger entries, sponsorships) are the rows referencing the one modelled
sponsor; the handlers only ever touch rows of the acting sponsor, so a
per-account state is faithful.
-/

namespace LMS

/-- transaction_type choices of the SponsorTransaction model. -/
inductive TxnType
  | ADD
  | DEDUCT
deriving DecidableEq, Repr

/-- The description strings the handlers write into SponsorTransaction rows,
kept structured: `added a` / `deducted a` stand for the f-strings
"Added {a} funds." / "Deducted {a} funds.", and `sponsorshipFor stu` stands
for "Sponsorship for {student.username}" (the student reference). -/
inductive Desc
  | added (amount : ℚ)
  | deducted (amount : ℚ)
  | sponsorshipFor (student : Nat)
deriving DecidableEq, Repr

/-- A SponsorTransaction row (ledger entry) of the modelled sponsor. -/
structure Txn where
  transaction_type : TxnType
  amount : ℚ
  balance_after : ℚ
  description : Desc
deriving DecidableEq, Repr

/-- A Sponsorship row of the modelled sponsor: student id, optional course
id, amount. `created_at` is an auto timestamp and carries no logic. -/
structure Sponsorship where
  student : Nat
  course : Option Nat
  amount : ℚ
deriving DecidableEq, Repr

/-- Per-sponsor state: the SponsorProfile.total_funds value plus the
SponsorTransaction and Sponsorship rows referencing this sponsor.
New rows are appended at the tail (chronological order; the model's
`ordering = [-timestamp]` only affects display). -/
structure AccountState where
  total_funds : ℚ
  ledger : List Txn
  sponsorships : List Sponsorship
deriving DecidableEq, Repr

/-- Caller-visible failures raised or returned by the handlers. -/
inductive ApiError
  | badRequest (msg : String)
  | validationError (msg : String)
  | permissionDenied (msg : String)
deriving DecidableEq, Repr

/-- HTTP status of each failure: explicit 400 Responses and DRF
ValidationError map to 400, DRF PermissionDenied to 403. -/
def ApiError.status : ApiError → Nat
  | .badRequest _ => 400
  | .validationError _ => 400
  | .permissionDenied _ => 403

/-- The two 400 messages add_funds/deduct_funds return for a missing,
non-numeric, zero or negative amount: the spec's InvalidAmount class. -/
def ApiError.isInvalidAmount : ApiError → Bool
  | .badRequest m =>
      m == "Please provide a valid positive number for \x27amount\x27." ||
      m == "Amount must be a positive number."
  | _ => false

/-- Result of `Decimal(str(x))` on the raw amount extracted from the request
data.  `num q`: it parses to the exact decimal value q.  `invalid`: it
raises ValueError/TypeError/InvalidOperation (absent field, None, or a
non-numeric string).  In add_funds the extraction is
`request.data.get("amount") or request.data.get("total_funds")`, so a falsy
JSON `0` in "amount" falls through; with "total_funds" absent that path
also ends in `invalid`. -/
inductive RawAmount
  | invalid
  | num (q : ℚ)
deriving DecidableEq, Repr

/-- The caller identity facts the sponsorship handlers test:
membership of the "Sponsor" group and existence of a SponsorProfile. -/
structure Caller where
  inSponsorGroup : Bool
  hasSponsorProfile : Bool
deriving DecidableEq, Repr

/-- SponsorProfileViewSet.perform_create + SponsorProfileSerializer.create:
only Sponsor-group callers may create a profile; the profile is stored with
the submitted total_funds (model default 0.00 when omitted).  The
serializer's DecimalField checks digits only — any sign is accepted — and
no ledger entry is written. -/
def create_profile (caller : Caller) (total_funds : Option ℚ) :
    Except ApiError AccountState :=
  if caller.inSponsorGroup = false then
    .error (.permissionDenied "Only sponsors can create sponsor profiles.")
  else
    .ok ⟨total_funds.getD 0, [], []⟩

/-- ModelViewSet update/partial_update on SponsorProfileViewSet:
`total_funds` is a writable serializer field, so an update writes the
submitted value directly — no sign check, no ledger entry. -/
def update_profile_funds (st : AccountState) (new_funds : ℚ) : AccountState :=
  { st with total_funds := new_funds }

/-- SponsorProfileViewSet.add_funds (views.py 552-588). -/
def add_funds (st : AccountState) (raw : RawAmount) :
    Except ApiError ℚ × AccountState :=
  match raw with
  | .invalid =>
      (.error (.badRequest "Please provide a valid positive number for \x27amount\x27."), st)
  | .num amount =>
      if amount ≤ 0 then
        (.error (.badRequest "Amount must be a positive number."), st)
      else
        let newFunds := st.total_funds + amount
        (.ok newFunds,
         { st with
             total_funds := newFunds
             ledger := st.ledger ++ [⟨.ADD, amount, newFunds, .added amount⟩] })

/-- SponsorProfileViewSet.deduct_funds (views.py 590-632). -/
def deduct_funds (st : AccountState) (raw : RawAmount) :
    Except ApiError ℚ × AccountState :=
  match raw with
  | .invalid =>
      (.error (.badRequest "Please provide a valid positive number for \x27amount\x27."), st)
  | .num amount =>
      if amount ≤ 0 then
        (.error (.badRequest "Amount must be a positive number."), st)
      else if st.total_funds < amount then
        (.error (.badRequest "Insufficient funds to deduct this amount."), st)
      else
        let newFunds := st.total_funds - amount
        (.ok newFunds,
         { st with
             total_funds := newFunds
             ledger := st.ledger ++ [⟨.DEDUCT, amount, newFunds, .deducted amount⟩] })

/-- SponsorshipViewSet.perform_create (views.py 685-716) composed with
SponsorshipSerializer (Serializer.py 150-201), in the order the code runs:
1. serializer field validation — a non-numeric amount fails with DRF's
   "A valid number is required." before anything else (no positivity check);
2. perform_create fetches the caller's SponsorProfile, raising
   PermissionDenied when there is none;
3. serializer.create checks the Sponsor group, raising ValidationError for
   non-sponsors, then persists the Sponsorship row;
4. only after the save, perform_create compares total_funds with the
   amount and raises ValidationError on insufficient funds — the saved
   Sponsorship row survives this failure;
5. otherwise it deducts the amount and records a DEDUCT transaction whose
   description references the sponsored student. -/
def perform_create_sponsorship (st : AccountState) (caller : Caller)
    (student : Nat) (course : Option Nat) (raw : RawAmount) :
    Except ApiError Unit × AccountState :=
  match raw with
  | .invalid => (.error (.validationError "A valid number is required."), st)
  | .num amount =>
      if caller.hasSponsorProfile = false then
        (.error (.permissionDenied "You must have a SponsorProfile to create sponsorships."), st)
      else if caller.inSponsorGroup = false then
        (.error (.validationError "Only sponsors can create sponsorships."), st)
      else
        let st1 := { st with sponsorships := st.sponsorships ++ [⟨student, course, amount⟩] }
        if st1.total_funds < amount then
          (.error (.validationError "Insufficient funds for this sponsorship."), st1)
        else
          let newFunds := st1.total_funds - amount
          (.ok (),
           { st1 with
               total_funds := newFunds
               ledger := st1.ledger ++ [⟨.DEDUCT, amount, newFunds, .sponsorshipFor student⟩] })

/-- UpdateModelMixin.update inherited by SponsorshipViewSet from
ModelViewSet: overwrites the writable fields (student, course, amount) of
the identified Sponsorship row; no balance or ledger compensation. -/
def update_sponsorship (st : AccountState) (i : Nat) (student : Nat)
    (course : Option Nat) (amount : ℚ) : AccountState :=
  { st with sponsorships := st.sponsorships.set i ⟨student, course, amount⟩ }

/-- DestroyModelMixin.destroy inherited by SponsorshipViewSet from
ModelViewSet: deletes the identified Sponsorship row; no balance or ledger
compensation. -/
def destroy_sponsorship (st : AccountState) (i : Nat) : AccountState :=
  { st with sponsorships := st.sponsorships.eraseIdx i }

/-- The three fund-mutating operations of the ledger component, with the
raw request inputs they receive. -/
inductive Op
  | add (raw : RawAmount)
  | deduct (raw : RawAmount)
  | sponsor (caller : Caller) (student : Nat) (course : Option Nat) (raw : RawAmount)

/-- State reached after one operation (its response discarded). -/
def runOp (st : AccountState) : Op → AccountState
  | .add raw => (add_funds st raw).2
  | .deduct raw => (deduct_funds st raw).2
  | .sponsor c stu co raw => (perform_create_sponsorship st c stu co raw).2

/-- State reached after a sequence of operations. -/
def runOps (st : AccountState) (ops : List Op) : AccountState :=
  ops.foldl runOp st

/-- Sum of the amounts of the ledger entries of one transaction type. -/
def sumOfType (k : TxnType) (l : List Txn) : ℚ :=
  ((l.filter (fun t => t.transaction_type == k)).map Txn.amount).sum

/-- The account reconciles against an initial balance: total_funds equals
the initial balance plus the sum of ADD amounts minus the sum of DEDUCT
amounts over the ledger. -/
def reconciles (init : ℚ) (st : AccountState) : Prop :=
  st.total_funds = init + sumOfType .ADD st.ledger - sumOfType .DEDUCT st.ledger

/-- An Enrollment row: student id, course id, progress. -/
structure Enrollment where
  student : Nat
  course : Nat
  progress : ℚ
deriving DecidableEq, Repr

/-- The enrollment queryset the dashboard builds for one sponsorship
(analytics/views.py 97-99): enrollments of the sponsored student, narrowed
to the sponsored course when the sponsorship names one. -/
def linkedEnrollments (enrollments : List Enrollment) (s : Sponsorship) :
    List Enrollment :=
  match s.course with
  | none => enrollments.filter (fun e => e.student == s.student)
  | some c => enrollments.filter (fun e => e.student == s.student && e.course == c)

/-- The dashboard's accumulation loop (analytics/views.py 92-109): for each
sponsorship, fold over its linked enrollments adding the progress to
total_progress and 1 to student_count (the counter counts enrollments,
despite its name). -/
def dashboardTotals (enrollments : List Enrollment)
    (sponsorships : List Sponsorship) : ℚ × Nat :=
  sponsorships.foldl
    (fun acc s =>
      (linkedEnrollments enrollments s).foldl
        (fun acc2 e => (acc2.1 + e.progress, acc2.2 + 1)) acc)
    (0, 0)

/-- The average_student_progress the dashboard reports
(analytics/views.py 122): total_progress / student_count when the counter
is positive, 0 otherwise.  `Decimal` division is modelled exactly. -/
def dashboard_average_progress (enrollments : List Enrollment)
    (sponsorships : List Sponsorship) : ℚ :=
  let t := dashboardTotals enrollments sponsorships
  if 0 < t.2 then t.1 / t.2 else 0

/-- The enrollments linked to a list of sponsorships, one block per
sponsorship in order (an enrollment reached through several sponsorships
appears once per linking sponsorship, as in the dashboard's loop). -/
def linkedList (enrollments : List Enrollment) :
    List Sponsorship → List Enrollment
  | [] => []
  | s :: rest => linkedEnrollments enrollments s ++ linkedList enrollments rest

/-- The average the spec describes, stated declaratively: sum of the
progress values of the linked enrollments divided by their count, and 0
when no linked enrollment exists. -/
def averageSpec (enrollments : List Enrollment)
    (sponsorships : List Sponsorship) : ℚ :=
  let l := linkedList enrollments sponsorships
  if l.length = 0 then 0 else (l.map Enrollment.progress).sum / l.length

/-- Appending one ledger entry adds its amount to the sum of its type and
leaves the sum of the other type unchanged. -/
theorem sumOfType_append_single (k : TxnType) (l : List Txn) (t : Txn) :
    sumOfType k (l ++ [t]) =
      sumOfType k l + (if t.transaction_type == k then t.amount else 0) := by
  by_cases hk : t.transaction_type == k <;>
    simp [sumOfType, List.filter_append, hk]

/-- Derived BEq on TxnType evaluated on constructors. -/
@[simp] theorem beq_ADD_DEDUCT : (TxnType.ADD == TxnType.DEDUCT) = false := rfl

/-- Derived BEq on TxnType evaluated on constructors. -/
@[simp] theorem beq_DEDUCT_ADD : (TxnType.DEDUCT == TxnType.ADD) = false := rfl

/-- Derived BEq on TxnType evaluated on constructors. -/
@[simp] theorem beq_ADD_ADD : (TxnType.ADD == TxnType.ADD) = true := rfl

/-- Derived BEq on TxnType evaluated on constructors. -/
@[simp] theorem beq_DEDUCT_DEDUCT : (TxnType.DEDUCT == TxnType.DEDUCT) = true := rfl

/-- One step of any fund operation preserves reconciliation against the
initial balance. -/
theorem reconciles_runOp (init : ℚ) (st : AccountState) (op : Op)
    (h : reconciles init st) : reconciles init (runOp st op) := by
  cases op with
  | add raw =>
      cases raw with
      | invalid => simpa [runOp, add_funds] using h
      | num a =>
          by_cases ha : a ≤ 0
          · simpa [runOp, add_funds, ha] using h
          · simp only [runOp, add_funds, if_neg ha]
            simp only [reconciles] at h ⊢
            simp [sumOfType_append_single]
            linarith
  | deduct raw =>
      cases raw with
      | invalid => simpa [runOp, deduct_funds] using h
      | num a =>
          by_cases ha : a ≤ 0
          · simpa [runOp, deduct_funds, ha] using h
          · by_cases hb : st.total_funds < a
            · simpa [runOp, deduct_funds, ha, hb] using h
            · simp only [runOp, deduct_funds, if_neg ha, if_neg hb]
              simp only [reconciles] at h ⊢
              simp [sumOfType_append_single]
              linarith
  | sponsor c stu co raw =>
      cases raw with
      | invalid => simpa [runOp, perform_create_sponsorship] using h
      | num a =>
          by_cases hp : c.hasSponsorProfile = false
          · simpa [runOp, perform_create_sponsorship, hp] using h
          · by_cases hg : c.inSponsorGroup = false
            · simpa [runOp, perform_create_sponsorship, hp, hg] using h
            · by_cases hb : st.total_funds < a
              · simpa [runOp, perform_create_sponsorship, hp, hg, hb] using h
              · simp only [runOp, perform_create_sponsorship, if_neg hp, if_neg hg]
                simp only [reconciles] at h ⊢
                simp [hb, sumOfType_append_single]
                linarith

/-- A whole sequence of fund operations preserves reconciliation. -/
theorem reconciles_runOps (init : ℚ) (ops : List Op) (st : AccountState)
    (h : reconciles init st) : reconciles init (runOps st ops) := by
  induction ops generalizing st with
  | nil => exact h
  | cons op rest ih => exact ih _ (reconciles_runOp init st op h)

/-- The inner dashboard loop adds the progress sum and the length of the
enrollment list to the accumulator. -/
theorem foldl_progress_count (l : List Enrollment) (acc : ℚ × Nat) :
    l.foldl (fun acc2 e => (acc2.1 + e.progress, acc2.2 + 1)) acc =
      (acc.1 + (l.map Enrollment.progress).sum, acc.2 + l.length) := by
  induction l generalizing acc with
  | nil => simp
  | cons e rest ih =>
      simp only [List.foldl_cons, ih, List.map_cons, List.sum_cons, List.length_cons]
      refine Prod.ext ?_ ?_
      · simp only []
        ring
      · simp only []
        omega

/-- The outer dashboard loop, for any accumulator, adds the progress sum
and the count of all linked enrollments. -/
theorem dashboardTotals_go (enrollments : List Enrollment)
    (sponsorships : List Sponsorship) (acc : ℚ × Nat) :
    sponsorships.foldl
        (fun acc s =>
          (linkedEnrollments enrollments s).foldl
            (fun acc2 e => (acc2.1 + e.progress, acc2.2 + 1)) acc)
        acc =
      (acc.1 + ((linkedList enrollments sponsorships).map Enrollment.progress).sum,
       acc.2 + (linkedList enrollments sponsorships).length) := by
  induction sponsorships generalizing acc with
  | nil => simp [linkedList]
  | cons s rest ih =>
      rw [List.foldl_cons, foldl_progress_count, ih]
      simp only [linkedList, List.map_append, List.sum_append, List.length_append]
      refine Prod.ext ?_ ?_
      · simp only []
        ring
      · simp only []
        omega

/-- dashboardTotals computes the progress sum and count of the linked
enrollment list. -/
theorem dashboardTotals_eq (enrollments : List Enrollment)
    (sponsorships : List Sponsorship) :
    dashboardTotals enrollments sponsorships =
      (((linkedList enrollments sponsorships).map Enrollment.progress).sum,
       (linkedList enrollments sponsorships).length) := by
  simpa [dashboardTotals] using dashboardTotals_go enrollments sponsorships (0, 0)

/-- C1: CreateSponsorship is NOT atomic.  With balance 10.00 and amount
40.00 the call fails with the insufficient-funds ValidationError, yet the
Sponsorship row saved before the funds check survives in the final state,
while no deduction and no ledger entry happened: a failed call leaves a
Sponsorship persisted without the corresponding deduction. -/
theorem C1_sponsorship_persists_on_failure :
    perform_create_sponsorship ⟨10, [], []⟩ ⟨true, true⟩ 7 none (.num 40) =
      (.error (.validationError "Insufficient funds for this sponsorship."),
       ⟨10, [], [⟨7, none, 40⟩]⟩) := rfl

/-- C2 counterexample: an account created through the profile endpoint with
submitted total_funds 100 starts with balance 100 and an empty ledger, so
after the empty operation sequence the balance does not equal the sum of
ADD amounts minus the sum of DEDUCT amounts. -/
theorem C2_initial_funds_break_reconciliation :
    create_profile ⟨true, true⟩ (some 100) = .ok ⟨100, [], []⟩ ∧
    (runOps ⟨100, [], []⟩ []).total_funds ≠
      sumOfType .ADD (runOps ⟨100, [], []⟩ []).ledger -
        sumOfType .DEDUCT (runOps ⟨100, [], []⟩ []).ledger := by
  refine ⟨rfl, ?_⟩
  simp [runOps, sumOfType]

/-- C2 amended: for an account created through the profile endpoint with
initial funds i, after any sequence of AddFunds / DeductFunds /
CreateSponsorship operations the balance equals i plus the sum of ADD
ledger amounts minus the sum of DEDUCT ledger amounts. -/
theorem C2_ledger_reconciles (c : Caller) (i : ℚ) (ops : List Op)
    (st0 : AccountState) (hc : c.inSponsorGroup = true)
    (hcreate : create_profile c (some i) = .ok st0) :
    (runOps st0 ops).total_funds =
      i + sumOfType .ADD (runOps st0 ops).ledger -
        sumOfType .DEDUCT (runOps st0 ops).ledger := by
  have hst : st0 = ⟨i, [], []⟩ := by
    simp [create_profile, hc] at hcreate
    exact hcreate.symm
  subst hst
  have h0 : reconciles i ⟨i, [], []⟩ := by
    simp [reconciles, sumOfType]
  exact reconciles_runOps i ops _ h0

/-- C2 witness: concrete run of the amended reconciliation theorem. -/
theorem C2_ledger_reconciles_witness :
    (runOps ⟨50, [], []⟩ [.add (.num 10), .deduct (.num 5)]).total_funds =
      50 + sumOfType .ADD (runOps ⟨50, [], []⟩ [.add (.num 10), .deduct (.num 5)]).ledger -
        sumOfType .DEDUCT (runOps ⟨50, [], []⟩ [.add (.num 10), .deduct (.num 5)]).ledger :=
  C2_ledger_reconciles ⟨true, true⟩ 50 [.add (.num 10), .deduct (.num 5)]
    ⟨50, [], []⟩ rfl rfl

/-- C3 counterexample: account creation accepts a negative submitted
total_funds (the serializer's DecimalField has no sign check), producing a
balance below zero. -/
theorem C3_negative_balance_at_creation :
    create_profile ⟨true, true⟩ (some (-50)) = .ok ⟨-50, [], []⟩ ∧
      (⟨-50, [], []⟩ : AccountState).total_funds < 0 := by
  refine ⟨rfl, ?_⟩
  norm_num

/-- C3 amended: the three fund operations (AddFunds, DeductFunds,
CreateSponsorship) preserve balance ≥ 0, on success and on failure;
account creation and profile update, which write the submitted
total_funds without a sign check, do not. -/
theorem C3_fund_ops_preserve_nonneg (st : AccountState) (op : Op)
    (h : 0 ≤ st.total_funds) : 0 ≤ (runOp st op).total_funds := by
  cases op with
  | add raw =>
      cases raw with
      | invalid => simpa [runOp, add_funds] using h
      | num a =>
          by_cases ha : a ≤ 0
          · simpa [runOp, add_funds, ha] using h
          · have hgoal : (0 : ℚ) ≤ st.total_funds + a := by
              push_neg at ha
              linarith
            simpa [runOp, add_funds, if_neg ha] using hgoal
  | deduct raw =>
      cases raw with
      | invalid => simpa [runOp, deduct_funds] using h
      | num a =>
          by_cases ha : a ≤ 0
          · simpa [runOp, deduct_funds, ha] using h
          · by_cases hb : st.total_funds < a
            · simpa [runOp, deduct_funds, ha, hb] using h
            · have hgoal : (0 : ℚ) ≤ st.total_funds - a := by
                push_neg at hb
                linarith
              simpa [runOp, deduct_funds, if_neg ha, if_neg hb] using hgoal
  | sponsor c stu co raw =>
      cases raw with
      | invalid => simpa [runOp, perform_create_sponsorship] using h
      | num a =>
          by_cases hp : c.hasSponsorProfile = false
          · simpa [runOp, perform_create_sponsorship, hp] using h
          · by_cases hg : c.inSponsorGroup = false
            · simpa [runOp, perform_create_sponsorship, hp, hg] using h
            · by_cases hb : st.total_funds < a
              · simpa [runOp, perform_create_sponsorship, hp, hg, hb] using h
              · have hgoal : (0 : ℚ) ≤ st.total_funds - a := by
                  push_neg at hb
                  linarith
                simpa [runOp, perform_create_sponsorship, if_neg hp, if_neg hg, hb]
                  using hgoal

/-- C3 witness: a concrete deduction from a non-negative balance stays
non-negative. -/
theorem C3_fund_ops_preserve_nonneg_witness :
    0 ≤ (runOp ⟨5, [], []⟩ (.deduct (.num 3))).total_funds :=
  C3_fund_ops_preserve_nonneg ⟨5, [], []⟩ (.deduct (.num 3)) (by norm_num)

/-- C4: DeductFunds with a positive amount exceeding the balance returns
the insufficient-funds 400 error and the whole account state — balance,
ledger and sponsorships — is returned unchanged. -/
theorem C4_deduct_insufficient_funds (st : AccountState) (a : ℚ)
    (hpos : 0 < a) (hgt : st.total_funds < a) :
    deduct_funds st (.num a) =
      (.error (.badRequest "Insufficient funds to deduct this amount."), st) := by
  simp [deduct_funds, not_le.mpr hpos, hgt]

/-- C4 witness: the spec scenario — balance 60.00, DeductFunds 100.00. -/
theorem C4_deduct_insufficient_funds_witness :
    deduct_funds ⟨60, [], []⟩ (.num 100) =
      (.error (.badRequest "Insufficient funds to deduct this amount."),
       ⟨60, [], []⟩) :=
  C4_deduct_insufficient_funds ⟨60, [], []⟩ 100 (by norm_num)
    (show (60 : ℚ) < 100 by norm_num)

/-- C5: AddFunds with a positive decimal amount succeeds, the new balance
is the old balance plus the amount, exactly one ADD ledger entry with that
amount and balance_after is appended, and the new balance is returned. -/
theorem C5_add_funds_success (st : AccountState) (a : ℚ) (hpos : 0 < a) :
    add_funds st (.num a) =
      (.ok (st.total_funds + a),
       { st with
           total_funds := st.total_funds + a
           ledger := st.ledger ++ [⟨.ADD, a, st.total_funds + a, .added a⟩] }) := by
  simp [add_funds, not_le.mpr hpos]

/-- C5 witness: adding 25 to a fresh zero-balance account. -/
theorem C5_add_funds_success_witness :
    add_funds ⟨0, [], []⟩ (.num 25) =
      (.ok 25, ⟨25, [⟨.ADD, 25, 25, .added 25⟩], []⟩) := by
  have h := C5_add_funds_success ⟨0, [], []⟩ 25 (by norm_num)
  simpa using h

/-- C6: AddFunds fails with an InvalidAmount 400 error and leaves the
state unchanged whenever the raw amount does not parse as a decimal or
parses to a value ≤ 0 (covers 0, -5 and non-numeric input). -/
theorem C6_add_funds_invalid_amount (st : AccountState) (raw : RawAmount)
    (h : raw = .invalid ∨ ∃ q, raw = .num q ∧ q ≤ 0) :
    (∃ e, (add_funds st raw).1 = .error e ∧ e.isInvalidAmount = true) ∧
      (add_funds st raw).2 = st := by
  rcases h with h | ⟨q, hq, hle⟩
  · subst h
    exact ⟨⟨_, rfl, rfl⟩, rfl⟩
  · subst hq
    refine ⟨⟨.badRequest "Amount must be a positive number.", ?_, rfl⟩, ?_⟩ <;>
      simp [add_funds, hle]

/-- C6 witness: AddFunds with 0 and with -5 both fail with InvalidAmount
and leave the balance-60 account untouched. -/
theorem C6_add_funds_invalid_amount_witness :
    ((∃ e, (add_funds ⟨60, [], []⟩ (.num 0)).1 = .error e ∧
        e.isInvalidAmount = true) ∧
      (add_funds ⟨60, [], []⟩ (.num 0)).2 = ⟨60, [], []⟩) ∧
    ((∃ e, (add_funds ⟨60, [], []⟩ (.num (-5))).1 = .error e ∧
        e.isInvalidAmount = true) ∧
      (add_funds ⟨60, [], []⟩ (.num (-5))).2 = ⟨60, [], []⟩) :=
  ⟨C6_add_funds_invalid_amount ⟨60, [], []⟩ (.num 0)
      (Or.inr ⟨0, rfl, by norm_num⟩),
   C6_add_funds_invalid_amount ⟨60, [], []⟩ (.num (-5))
      (Or.inr ⟨-5, rfl, by norm_num⟩)⟩

/-- C7: CreateSponsorship does NOT reject non-positive amounts.  With
balance 60.00 and amount -5.00 the call succeeds: the Sponsorship row is
persisted with the negative amount, a DEDUCT ledger entry of -5.00 is
recorded, and the balance rises to 65.00. -/
theorem C7_negative_sponsorship_accepted :
    perform_create_sponsorship ⟨60, [], []⟩ ⟨true, true⟩ 7 none (.num (-5)) =
      (.ok (),
       ⟨65, [⟨.DEDUCT, -5, 65, .sponsorshipFor 7⟩], [⟨7, none, -5⟩]⟩) := by
  norm_num [perform_create_sponsorship]

/-- C8 counterexample: a caller holding a SponsorProfile but not the
Sponsor group is rejected by the serializer with a ValidationError whose
status is 400, not the PermissionDenied 403 the claim requires. -/
theorem C8_non_sponsor_gets_400_not_403 :
    (perform_create_sponsorship ⟨100, [], []⟩ ⟨false, true⟩ 7 none (.num 10)).1 =
        .error (.validationError "Only sponsors can create sponsorships.") ∧
      (ApiError.validationError "Only sponsors can create sponsorships.").status ≠ 403 := by
  exact ⟨rfl, by decide⟩

/-- C8 amended: every CreateSponsorship call by a caller outside the
Sponsor group fails and returns the state unchanged; the failure carries
status 403 or 400, and — for parseable amounts — it is 403 exactly when
the caller has no SponsorProfile (otherwise it is the serializer's 400
validation error). -/
theorem C8_non_sponsor_always_rejected (st : AccountState) (c : Caller)
    (student : Nat) (course : Option Nat) (raw : RawAmount)
    (h : c.inSponsorGroup = false) :
    ∃ e, perform_create_sponsorship st c student course raw = (.error e, st) ∧
      (e.status = 403 ∨ e.status = 400) ∧
      (raw ≠ .invalid → (e.status = 403 ↔ c.hasSponsorProfile = false)) := by
  cases raw with
  | invalid =>
      refine ⟨.validationError "A valid number is required.", rfl, Or.inr rfl, ?_⟩
      intro hraw
      exact absurd rfl hraw
  | num a =>
      cases hp : c.hasSponsorProfile with
      | false =>
          refine ⟨.permissionDenied "You must have a SponsorProfile to create sponsorships.",
            ?_, Or.inl rfl, ?_⟩
          · simp [perform_create_sponsorship, hp]
          · intro _
            simp [ApiError.status]
      | true =>
          refine ⟨.validationError "Only sponsors can create sponsorships.",
            ?_, Or.inr rfl, ?_⟩
          · simp [perform_create_sponsorship, hp, h]
          · intro _
            simp [ApiError.status]

/-- C8 witness: a caller with neither Sponsor group nor profile is
rejected with the state unchanged. -/
theorem C8_non_sponsor_always_rejected_witness :
    ∃ e, perform_create_sponsorship ⟨0, [], []⟩ ⟨false, false⟩ 7 none (.num 10) =
        (.error e, ⟨0, [], []⟩) ∧
      (e.status = 403 ∨ e.status = 400) ∧
      ((RawAmount.num 10) ≠ .invalid →
        (e.status = 403 ↔ (⟨false, false⟩ : Caller).hasSponsorProfile = false)) :=
  C8_non_sponsor_always_rejected ⟨0, [], []⟩ ⟨false, false⟩ 7 none (.num 10) rfl

/-- C9: the dashboard's reported average progress equals the sum of the
progress values of the enrollments linked to the sponsor's sponsorships
divided by the count of linked enrollments (an enrollment linked through
several sponsorships counting once per linking sponsorship, as the loop
iterates), and is 0 when no linked enrollment exists. -/
theorem C9_dashboard_average_progress_correct
    (enrollments : List Enrollment) (sponsorships : List Sponsorship) :
    dashboard_average_progress enrollments sponsorships =
      averageSpec enrollments sponsorships ∧
    (linkedList enrollments sponsorships = [] →
      dashboard_average_progress enrollments sponsorships = 0) := by
  have heq : dashboard_average_progress enrollments sponsorships =
      averageSpec enrollments sponsorships := by
    simp only [dashboard_average_progress, averageSpec, dashboardTotals_eq]
    by_cases h : (linkedList enrollments sponsorships).length = 0
    · simp [h]
    · simp [h, Nat.pos_of_ne_zero h]
  refine ⟨heq, fun hnil => ?_⟩
  rw [heq]
  simp [averageSpec, hnil]

/-- C10 counterexample: the inherited ModelViewSet update action rewrites a
persisted Sponsorship — the amount-40 record becomes an amount-10 record,
so a sponsorship's fields are not unchanged by every subsequent
operation. -/
theorem C10_update_mutates_sponsorship :
    (update_sponsorship ⟨60, [], [⟨7, none, 40⟩]⟩ 0 7 none 10).sponsorships =
        [⟨7, none, 10⟩] ∧
      (⟨7, none, (40 : ℚ)⟩ : Sponsorship) ≠ ⟨7, none, 10⟩ := by
  refine ⟨rfl, ?_⟩
  decide

/-- C10 amended: the sponsorship component defines no custom edit or
delete logic, but SponsorshipViewSet inherits ModelViewSet's update and
destroy actions, which can overwrite or remove a persisted Sponsorship;
these actions touch only the sponsorship rows — balance and ledger are
never adjusted (no refund). -/
theorem C10_inherited_edit_ops_touch_only_sponsorships (st : AccountState)
    (i student : Nat) (course : Option Nat) (amount : ℚ) :
    (update_sponsorship st i student course amount).total_funds = st.total_funds ∧
    (update_sponsorship st i student course amount).ledger = st.ledger ∧
    (destroy_sponsorship st i).total_funds = st.total_funds ∧
    (destroy_sponsorship st i).ledger = st.ledger :=
  ⟨rfl, rfl, rfl, rfl⟩

end LMS
